import Mathlib

/-!
Verification development for the opinion-tracking core of the arbitrum-classic
validator (`packages/arb-validator/rollup/opinion.go`).

Shallow embedding conventions:
* `[32]byte` hashes are `Nat` (`zeroBytes32 = 0`).
* `*big.Int` values are `Int`; `TimeTicks` is its wrapped `Int`.
* The machine is an opaque deterministic executor (spec section 3 / 6): machine
  snapshots are abstract values (`Machine := Nat`) and its contract
  (`ExecuteAssertion`, `IsMachineBlocked`) together with the constant
  `value.NewEmptyTuple().Hash()` is an `Oracles` record passed explicitly,
  since those collaborators live outside the file under verification.
* Go pointer-typed fields cloned with `Clone()` / `new(big.Int).Set` are value
  copies here; the pointer-aliasing behaviour of `preparedAssertion.Clone` is
  modelled separately with an explicit heap (see `Heap` below).
* Mutation of the shared chain state is explicit state passing
  (`ChainState` / `ReconcilerState`), and listener callbacks are recorded as a
  `Notification` trace.
-/

/-- Hashes (`[32]byte` in Go) are modelled as natural numbers. -/
abbrev Hash := Nat

/-- The zero hash used to mark an empty successor slot. -/
def zeroBytes32 : Hash := 0

/-- Machine snapshots are abstract values; execution is an oracle. -/
abbrev Machine := Nat

/-- `value.TupleValue` (the materialized message sequence) is abstract. -/
abbrev TupleValue := Nat

/-- `protocol.TimeBounds` as a pair of tick bounds. -/
abbrev TimeBounds := Int × Int

/-- The four-way classification `structures.ChildType` (the `structures`
package is outside the file under -- verification; the spec fixes it as a
closed enumeration doubling as an index 0..3 into `successorHashes`). -/
inductive ChildType where
  | invalidPending
  | invalidMessages
  | invalidExecution
  | valid
deriving DecidableEq, Repr

/-- The index of a `ChildType` into a node's four successor-hash slots.
Modelled from the spec: the `structures` package constants
(`InvalidPendingChildType = 0 .. ValidChildType = 3`) are not under `src/`;
only injectivity and the 0..3 range matter for the claims below. -/
def ChildType.idx : ChildType → Fin 4
  | .invalidPending => 0
  | .invalidMessages => 1
  | .invalidExecution => 2
  | .valid => 3

/-- `structures.AssertionParams`. -/
structure AssertionParams where
  numSteps : Nat
  timeBounds : TimeBounds
  importedMessageCount : Int
deriving DecidableEq, Repr

/-- `structures.AssertionClaim`; the assertion stub digest is abstract. -/
structure AssertionClaim where
  afterPendingTop : Hash
  importedMessagesSlice : Hash
  assertionStub : Nat
deriving DecidableEq, Repr

/-- `protocol.ExecutionAssertion`: the full replay result, with its
`DidInboxInsn` flag and its `Stub()` digest projection. -/
structure ExecutionAssertion where
  didInboxInsn : Bool
  numGas : Nat
  stub : Nat
deriving DecidableEq, Repr

/-- `structures.MessageStack` as observed through `TopCount`/`GetTopHash`. -/
structure MessageStack where
  topCount : Int
  getTopHash : Hash
deriving DecidableEq, Repr

/-- `structures.VMProtoData` (the fields this file reads). -/
structure VMProtoData where
  pendingTop : Hash
  pendingCount : Int
deriving DecidableEq, Repr

/-- The posted params/claim of a node's disputable assertion. -/
structure DisputableNode where
  assertionParams : AssertionParams
  assertionClaim : AssertionClaim
deriving DecidableEq, Repr

/-- External collaborator contract (spec section 6): the deterministic machine
executor `ExecuteAssertion` (returning the assertion, the steps actually run,
and the post-execution machine snapshot, modelling in-place mutation),
`machine.IsMachineBlocked`, and the constant `value.NewEmptyTuple().Hash()`. -/
structure Oracles where
  executeAssertion : Machine → Nat → TimeBounds → TupleValue → ExecutionAssertion × Nat × Machine
  isMachineBlocked : Machine → Int → Bool → Bool
  emptyTupleHash : Hash

/-- A dispute-graph `Node` (the fields `opinion.go` reads or writes). -/
structure Node where
  hash : Hash
  prevHash : Hash
  nodeDataHash : Hash
  deadline : Int
  linkType : ChildType
  vmProtoData : VMProtoData
  disputable : DisputableNode
  successorHashes : Fin 4 → Hash
  machine : Machine
  assertion : Option ExecutionAssertion
  assertionTxHash : Hash

/-- The `PendingInbox` interface surface used by this file. -/
structure PendingInbox where
  getTopHash : Hash
  getHeight : Hash → Option Int
  substack : Hash → Hash → MessageStack
  valueForSubseq : Hash → Hash → TupleValue

/-- `preparedAssertion` at value level (pointer sharing of `assertion` and
`machine` in `Clone` is modelled separately on the explicit heap). -/
structure PreparedAssertion where
  leafHash : Hash
  prevPrevLeafHash : Hash
  prevDataHash : Hash
  prevDeadline : Int
  prevChildType : ChildType
  beforeState : VMProtoData
  params : AssertionParams
  claim : AssertionClaim
  assertion : ExecutionAssertion
  machine : Machine
deriving DecidableEq, Repr

/-- Value-level `preparedAssertion.Clone`: produces an equal value (pointer
freshness/sharing is the heap model's concern). -/
def clonePA (pa : PreparedAssertion) : PreparedAssertion := pa

/-- The `ChainObserver` state read and written by `opinion.go`: the known-valid
pointer, the dispute graph (`nodeFromHash`, leaf set), the inbox, the listener
list, and the ambient values `latestBlockNumber`,
`nodeGraph.params.MaxExecutionSteps` and `currentTimeBounds()`. -/
structure ChainState where
  knownValidNode : Node
  nodeFromHash : Hash → Option Node
  leaves : List Hash
  pendingInbox : PendingInbox
  listeners : List Nat
  latestBlockNumber : Int
  maxExecutionSteps : Nat
  currentTimeBounds : TimeBounds

/-- `chain.nodeGraph.leaves.IsLeaf`. -/
def ChainState.isLeaf (c : ChainState) (n : Node) : Bool :=
  c.leaves.contains n.hash

/-- The opinion-update goroutine's local state: the chain plus the two
speculative caches (`preparingAssertions`, `preparedAssertions`). -/
structure ReconcilerState where
  chain : ChainState
  preparingAssertions : List Hash
  preparedAssertions : List (Hash × PreparedAssertion)

/-- Listener callbacks recorded as an event trace. -/
inductive Notification where
  | advancedKnownAssertion (listener : Nat) (assertion : Option ExecutionAssertion) (txHash : Hash)
  | advancedKnownValidNode (listener : Nat) (h : Hash)
  | assertionPrepared (listener : Nat) (pa : PreparedAssertion)
deriving DecidableEq, Repr

/-- Go map lookup `preparedAssertions[h]` on the association-list model. -/
def lookupPA (m : List (Hash × PreparedAssertion)) (h : Hash) : Option PreparedAssertion :=
  match m with
  | [] => none
  | (k, v) :: rest => if k = h then some v else lookupPA rest h

/-- `getNodeOpinion` (opinion.go lines 241-265). The first component is the
Go return value `(ChildType, *protocol.ExecutionAssertion)`; the second is the
final state of `prevMach` (mutated in place by `ExecuteAssertion` in Go). -/
def getNodeOpinion (O : Oracles) (params : AssertionParams) (claim : AssertionClaim)
    (prevPendingCount : Int) (claimHeight : Option Int) (messageStack : MessageStack)
    (messagesVal : TupleValue) (prevMach : Machine) :
    (ChildType × Option ExecutionAssertion) × Machine :=
  let correctAfterPendingTopHeight := prevPendingCount + params.importedMessageCount
  match claimHeight with
  | none => ((ChildType.invalidPending, none), prevMach)
  | some h =>
    if correctAfterPendingTopHeight ≠ h then ((ChildType.invalidPending, none), prevMach)
    else if messageStack.getTopHash ≠ claim.importedMessagesSlice then
      ((ChildType.invalidMessages, none), prevMach)
    else
      let r := O.executeAssertion prevMach params.numSteps params.timeBounds messagesVal
      if params.numSteps ≠ r.2.1 ∨ claim.assertionStub ≠ r.1.stub then
        ((ChildType.invalidExecution, none), r.2.2)
      else ((ChildType.valid, some r.1), r.2.2)

/-- The height check of `getNodeOpinion` fails (claim height absent or not
equal to `prevPendingCount + params.importedMessageCount`). -/
def heightCheckFails (params : AssertionParams) (prevPendingCount : Int)
    (claimHeight : Option Int) : Prop :=
  claimHeight ≠ some (prevPendingCount + params.importedMessageCount)

/-- The message-set check of `getNodeOpinion` fails. -/
def messageCheckFails (claim : AssertionClaim) (messageStack : MessageStack) : Prop :=
  messageStack.getTopHash ≠ claim.importedMessagesSlice

/-- The execution check of `getNodeOpinion` fails (replaying the machine for
`params.numSteps` runs a different number of steps or yields a different stub). -/
def execCheckFails (O : Oracles) (params : AssertionParams) (claim : AssertionClaim)
    (messagesVal : TupleValue) (prevMach : Machine) : Prop :=
  let r := O.executeAssertion prevMach params.numSteps params.timeBounds messagesVal
  params.numSteps ≠ r.2.1 ∨ claim.assertionStub ≠ r.1.stub

instance (params : AssertionParams) (ppc : Int) (ch : Option Int) :
    Decidable (heightCheckFails params ppc ch) := by
  unfold heightCheckFails; infer_instance

instance (claim : AssertionClaim) (ms : MessageStack) :
    Decidable (messageCheckFails claim ms) := by
  unfold messageCheckFails; infer_instance

instance (O : Oracles) (params : AssertionParams) (claim : AssertionClaim)
    (mv : TupleValue) (m : Machine) :
    Decidable (execCheckFails O params claim mv m) := by
  unfold execCheckFails; infer_instance

/-- The first non-zero entry of a node's `successorHashes` (the loop in
`updateCurrent` lines 72-79 returns on the first non-zero slot). -/
def firstNonZeroSuccessor (n : Node) : Option Hash :=
  if n.successorHashes 0 ≠ zeroBytes32 then some (n.successorHashes 0)
  else if n.successorHashes 1 ≠ zeroBytes32 then some (n.successorHashes 1)
  else if n.successorHashes 2 ≠ zeroBytes32 then some (n.successorHashes 2)
  else if n.successorHashes 3 ≠ zeroBytes32 then some (n.successorHashes 3)
  else none

/-- The `successor` closure of `updateCurrent`: look up the first non-zero
successor hash in the graph (`none` both when every slot is zero and when the
map misses, which in Go yields a nil pointer and a later panic). -/
def findSuccessor (c : ChainState) (n : Node) : Option Node :=
  match firstNonZeroSuccessor n with
  | none => none
  | some h => c.nodeFromHash h

/-- The slow path of `updateCurrent` (lines 94-107): clone the successor's
posted params/claim, query the inbox, clone the current machine and call
`getNodeOpinion`. Returns the new opinion, the final `nextMachine`, and
`validExecution`. -/
def slowPathOpinion (O : Oracles) (c : ChainState) (currentOpinion successor : Node) :
    ChildType × Machine × Option ExecutionAssertion :=
  let params := successor.disputable.assertionParams
  let claim := successor.disputable.assertionClaim
  let claimHeight := c.pendingInbox.getHeight claim.afterPendingTop
  let messageStack := c.pendingInbox.substack currentOpinion.vmProtoData.pendingTop claim.afterPendingTop
  let messagesVal := c.pendingInbox.valueForSubseq currentOpinion.vmProtoData.pendingTop claim.afterPendingTop
  let nextMachine := currentOpinion.machine
  let prevPendingCount := currentOpinion.vmProtoData.pendingCount
  let r := getNodeOpinion O params claim prevPendingCount claimHeight messageStack messagesVal nextMachine
  (r.1.1, r.2, r.1.2)

/-- Lines 69-107 of `updateCurrent`: resolve the first posted successor (Go
dereferences it unconditionally, so `none` marks the nil-pointer panic), then
either adopt a cached prepared assertion whose params/claim match the posted
ones (fast path) or classify via `getNodeOpinion` (slow path). -/
def computeOpinion (O : Oracles) (st : ReconcilerState) :
    Option (ChildType × Machine × Option ExecutionAssertion) :=
  let currentOpinion := st.chain.knownValidNode
  match findSuccessor st.chain currentOpinion with
  | none => none
  | some successor =>
    match lookupPA st.preparedAssertions currentOpinion.hash with
    | some prepped =>
      if prepped.params = successor.disputable.assertionParams ∧
          prepped.claim = successor.disputable.assertionClaim then
        some (ChildType.valid, prepped.machine, some prepped.assertion)
      else some (slowPathOpinion O st.chain currentOpinion successor)
    | none => some (slowPathOpinion O st.chain currentOpinion successor)

/-- Lines 109-111 of `updateCurrent`: both speculative caches are replaced by
fresh empty maps. -/
def resetCaches (st : ReconcilerState) : ReconcilerState :=
  { st with preparingAssertions := [], preparedAssertions := [] }

/-- `updateCurrent` (opinion.go lines 68-139) as a state transformer returning
the new reconciler state and the emitted listener notifications; `none` is the
nil-pointer panic when no successor resolves. After classification both caches
are reset; the node at the classified successor slot is looked up, and only if
it exists are the machine/assertion fields written, the pointer reassigned and
the listeners notified. -/
def updateCurrent (O : Oracles) (st : ReconcilerState) :
    Option (ReconcilerState × List Notification) :=
  match computeOpinion O st with
  | none => none
  | some (newOpinion, nextMachine, validExecution) =>
    let st1 := resetCaches st
    let kvn := st.chain.knownValidNode
    match st.chain.nodeFromHash (kvn.successorHashes newOpinion.idx) with
    | none => some (st1, [])
    | some correctNode =>
      let notifs1 :=
        if newOpinion = ChildType.valid then
          st.chain.listeners.map
            (fun l => Notification.advancedKnownAssertion l validExecution correctNode.assertionTxHash)
        else []
      let newNode :=
        if newOpinion = ChildType.valid then
          { correctNode with machine := nextMachine, assertion := validExecution }
        else
          { correctNode with machine := kvn.machine }
      let chain1 :=
        { st1.chain with
          nodeFromHash := fun h =>
            if h = kvn.successorHashes newOpinion.idx then some newNode
            else st1.chain.nodeFromHash h,
          knownValidNode := newNode }
      let notifs2 :=
        chain1.listeners.map (fun l => Notification.advancedKnownValidNode l chain1.knownValidNode.hash)
      some ({ st1 with chain := chain1 }, notifs1 ++ notifs2)

/-- The `assertionPreparedChan` receive case (opinion.go lines 145-146): the
completed build is stored in the cache keyed by its leaf hash, unconditionally;
no listener is called. -/
def handlePrepared (st : ReconcilerState) (prepped : PreparedAssertion) :
    ReconcilerState × List Notification :=
  ({ st with preparedAssertions := (prepped.leafHash, prepped) :: st.preparedAssertions }, [])

/-- The prepare/surface part of the ticker case (opinion.go lines 154-171):
if the current node is not marked as building and the machine is not blocked,
mark it as building (the spawned build itself arrives later via
`handlePrepared`); otherwise, if a build for the current node is cached and the
node is still a leaf, surface a clone of it to every listener. -/
def tickerPrepareStep (O : Oracles) (st : ReconcilerState) :
    ReconcilerState × List Notification :=
  let kvn := st.chain.knownValidNode
  if st.preparingAssertions.contains kvn.hash then
    match lookupPA st.preparedAssertions kvn.hash with
    | some prepared =>
      if st.chain.isLeaf kvn then
        (st, st.chain.listeners.map (fun l => Notification.assertionPrepared l (clonePA prepared)))
      else (st, [])
    | none => (st, [])
  else
    let newMessages := decide (kvn.vmProtoData.pendingTop ≠ st.chain.pendingInbox.getTopHash)
    if O.isMachineBlocked kvn.machine st.chain.latestBlockNumber newMessages then
      (st, [])
    else
      ({ st with preparingAssertions := kvn.hash :: st.preparingAssertions }, [])

/-- `prepareAssertion` (opinion.go lines 179-239): snapshot the current
known-valid node, bail out with `none` when it is no longer a leaf, replay the
cloned machine over the pending message window up to `MaxExecutionSteps`, and
package params/claim according to `assertion.DidInboxInsn`. -/
def prepareAssertion (O : Oracles) (c : ChainState) : Option PreparedAssertion :=
  let currentOpinion := c.knownValidNode
  let currentOpinionHash := currentOpinion.hash
  let prevPrevLeafHash := currentOpinion.prevHash
  let prevDataHash := currentOpinion.nodeDataHash
  let prevDeadline := currentOpinion.deadline
  let prevChildType := currentOpinion.linkType
  let beforeState := currentOpinion.vmProtoData
  if ¬ c.isLeaf currentOpinion then none
  else
    let afterPendingTop := c.pendingInbox.getTopHash
    let beforePendingTop := beforeState.pendingTop
    let messageStack := c.pendingInbox.substack beforePendingTop afterPendingTop
    let messagesVal := c.pendingInbox.valueForSubseq beforePendingTop afterPendingTop
    let r := O.executeAssertion currentOpinion.machine c.maxExecutionSteps c.currentTimeBounds messagesVal
    let assertion := r.1
    let stepsRun := r.2.1
    let mach := r.2.2
    let params : AssertionParams :=
      if assertion.didInboxInsn then
        { numSteps := stepsRun, timeBounds := c.currentTimeBounds,
          importedMessageCount := messageStack.topCount }
      else
        { numSteps := stepsRun, timeBounds := c.currentTimeBounds,
          importedMessageCount := 0 }
    let claim : AssertionClaim :=
      if assertion.didInboxInsn then
        { afterPendingTop := afterPendingTop,
          importedMessagesSlice := messageStack.getTopHash,
          assertionStub := assertion.stub }
      else
        { afterPendingTop := beforePendingTop,
          importedMessagesSlice := O.emptyTupleHash,
          assertionStub := assertion.stub }
    some
      { leafHash := currentOpinionHash, prevPrevLeafHash := prevPrevLeafHash,
        prevDataHash := prevDataHash, prevDeadline := prevDeadline,
        prevChildType := prevChildType, beforeState := beforeState,
        params := params, claim := claim, assertion := assertion, machine := mach }

/-- An explicit heap for the pointer structure of `preparedAssertion`: one cell
family per pointed-to type (`*big.Int` deadline, `*VMProtoData`,
`*AssertionParams`, `*AssertionClaim`, `*protocol.ExecutionAssertion`,
`machine.Machine`); `next` is the allocation bound. -/
structure Heap where
  next : Nat
  intCells : Nat → Int
  protoCells : Nat → VMProtoData
  paramsCells : Nat → AssertionParams
  claimCells : Nat → AssertionClaim
  assertionCells : Nat → ExecutionAssertion
  machineCells : Nat → Machine

/-- `preparedAssertion` with its Go pointer fields as heap references. -/
structure PreparedAssertionRef where
  leafHash : Hash
  prevPrevLeafHash : Hash
  prevDataHash : Hash
  prevDeadlineRef : Nat
  prevChildType : ChildType
  beforeStateRef : Nat
  paramsRef : Nat
  claimRef : Nat
  assertionRef : Nat
  machineRef : Nat
deriving DecidableEq, Repr

/-- `preparedAssertion.Clone` (opinion.go lines 46-59) on the explicit heap:
`prevDeadline`, `beforeState`, `params` and `claim` get freshly allocated cells
holding copies of the pointed-to values (`new(big.Int).Set`, `.Clone()`),
while the `assertion` and `machine` fields copy the pointers themselves. -/
def clonePrepared (h : Heap) (pa : PreparedAssertionRef) : Heap × PreparedAssertionRef :=
  let d := h.next
  let b := h.next + 1
  let p := h.next + 2
  let c := h.next + 3
  (⟨h.next + 4,
    Function.update h.intCells d (h.intCells pa.prevDeadlineRef),
    Function.update h.protoCells b (h.protoCells pa.beforeStateRef),
    Function.update h.paramsCells p (h.paramsCells pa.paramsRef),
    Function.update h.claimCells c (h.claimCells pa.claimRef),
    h.assertionCells, h.machineCells⟩,
   { pa with prevDeadlineRef := d, beforeStateRef := b, paramsRef := p, claimRef := c })

/-- In-place mutation of a deadline cell. -/
def writeIntCell (h : Heap) (r : Nat) (v : Int) : Heap :=
  { h with intCells := Function.update h.intCells r v }

/-- In-place mutation of a `VMProtoData` cell. -/
def writeProtoCell (h : Heap) (r : Nat) (v : VMProtoData) : Heap :=
  { h with protoCells := Function.update h.protoCells r v }

/-- In-place mutation of an `AssertionParams` cell. -/
def writeParamsCell (h : Heap) (r : Nat) (v : AssertionParams) : Heap :=
  { h with paramsCells := Function.update h.paramsCells r v }

/-- In-place mutation of an `AssertionClaim` cell. -/
def writeClaimCell (h : Heap) (r : Nat) (v : AssertionClaim) : Heap :=
  { h with claimCells := Function.update h.claimCells r v }

/-- In-place mutation of an `ExecutionAssertion` cell. -/
def writeAssertionCell (h : Heap) (r : Nat) (v : ExecutionAssertion) : Heap :=
  { h with assertionCells := Function.update h.assertionCells r v }

/-- In-place mutation of a machine cell. -/
def writeMachineCell (h : Heap) (r : Nat) (v : Machine) : Heap :=
  { h with machineCells := Function.update h.machineCells r v }

/-- C3: `getNodeOpinion` returns `(InvalidPendingHeight, no assertion)` if and
only if `claimHeight` is absent or differs from
`prevPendingCount + params.importedMessageCount`; in particular with
`prevPendingCount = 5`, `importedMessageCount = 2` and actual claim height 8
the result is `InvalidPendingHeight` with no assertion. -/
theorem getNodeOpinion_invalidPending_iff :
    (∀ (O : Oracles) (params : AssertionParams) (claim : AssertionClaim)
        (ppc : Int) (ch : Option Int) (ms : MessageStack) (mv : TupleValue) (m : Machine),
      (getNodeOpinion O params claim ppc ch ms mv m).1 = (ChildType.invalidPending, none) ↔
        ch ≠ some (ppc + params.importedMessageCount)) ∧
    (∀ (O : Oracles) (claim : AssertionClaim) (ms : MessageStack) (mv : TupleValue)
        (m : Machine) (tb : TimeBounds) (ns : Nat),
      (getNodeOpinion O ⟨ns, tb, 2⟩ claim 5 (some 8) ms mv m).1 =
        (ChildType.invalidPending, none)) := by
  constructor
  · intro O params claim ppc ch ms mv m
    cases ch with
    | none => simp [getNodeOpinion]
    | some h =>
      simp only [getNodeOpinion]
      split_ifs with h1 h2 h3 <;> simp <;> omega
  · intro O claim ms mv m tb ns
    simp [getNodeOpinion]

/-- C2: when more than one of the three checks is violated, the returned
`ChildType` is the first violated check in the fixed order (height, then
message set, then execution); moreover the result is then independent of the
data only later checks would consume, capturing the short-circuit. -/
theorem getNodeOpinion_first_violated
    (O : Oracles) (params : AssertionParams) (claim : AssertionClaim)
    (ppc : Int) (ch : Option Int) (ms ms2 : MessageStack) (mv mv2 : TupleValue) (m m2 : Machine) :
    (heightCheckFails params ppc ch →
      (messageCheckFails claim ms ∨ execCheckFails O params claim mv m) →
      (getNodeOpinion O params claim ppc ch ms mv m).1 = (ChildType.invalidPending, none) ∧
      (getNodeOpinion O params claim ppc ch ms mv m).1 =
        (getNodeOpinion O params claim ppc ch ms2 mv2 m2).1) ∧
    (¬ heightCheckFails params ppc ch →
      messageCheckFails claim ms → execCheckFails O params claim mv m →
      (getNodeOpinion O params claim ppc ch ms mv m).1 = (ChildType.invalidMessages, none) ∧
      (getNodeOpinion O params claim ppc ch ms mv m).1 =
        (getNodeOpinion O params claim ppc ch ms mv2 m2).1) := by
  constructor
  · intro hh _
    unfold heightCheckFails at hh
    cases ch with
    | none => simp [getNodeOpinion]
    | some h =>
      have hne : ppc + params.importedMessageCount ≠ h := by
        intro he; exact hh (by rw [he])
      simp [getNodeOpinion, hne]
  · intro hh hm _
    unfold heightCheckFails at hh
    unfold messageCheckFails at hm
    rw [not_ne_iff] at hh
    subst hh
    simp [getNodeOpinion, hm]

/-- C4: when the height and message-set checks both pass, the result is
`(InvalidExecution, no assertion)` whenever the replay's `stepsRun` differs
from `params.numSteps` (regardless of the stub) or the produced stub differs
from `claim.assertionStub`; otherwise it is `(Valid, assertion)` with the
assertion's stub equal to the committed `claim.assertionStub`. -/
theorem getNodeOpinion_execution_classification
    (O : Oracles) (params : AssertionParams) (claim : AssertionClaim)
    (ppc : Int) (ch : Option Int) (ms : MessageStack) (mv : TupleValue) (m : Machine)
    (hh : ch = some (ppc + params.importedMessageCount))
    (hm : ms.getTopHash = claim.importedMessagesSlice) :
    ((O.executeAssertion m params.numSteps params.timeBounds mv).2.1 ≠ params.numSteps →
      (getNodeOpinion O params claim ppc ch ms mv m).1 = (ChildType.invalidExecution, none)) ∧
    (claim.assertionStub ≠ (O.executeAssertion m params.numSteps params.timeBounds mv).1.stub →
      (getNodeOpinion O params claim ppc ch ms mv m).1 = (ChildType.invalidExecution, none)) ∧
    ((O.executeAssertion m params.numSteps params.timeBounds mv).2.1 = params.numSteps →
      claim.assertionStub = (O.executeAssertion m params.numSteps params.timeBounds mv).1.stub →
      (getNodeOpinion O params claim ppc ch ms mv m).1 =
        (ChildType.valid, some (O.executeAssertion m params.numSteps params.timeBounds mv).1) ∧
      (O.executeAssertion m params.numSteps params.timeBounds mv).1.stub = claim.assertionStub) := by
  subst hh
  refine ⟨?_, ?_, ?_⟩
  · intro hs
    have hc : params.numSteps ≠ (O.executeAssertion m params.numSteps params.timeBounds mv).2.1 ∨
        claim.assertionStub ≠ (O.executeAssertion m params.numSteps params.timeBounds mv).1.stub :=
      Or.inl (Ne.symm hs)
    simp [getNodeOpinion, hm, hc]
  · intro hs
    have hc : params.numSteps ≠ (O.executeAssertion m params.numSteps params.timeBounds mv).2.1 ∨
        claim.assertionStub ≠ (O.executeAssertion m params.numSteps params.timeBounds mv).1.stub :=
      Or.inr hs
    simp [getNodeOpinion, hm, hc]
  · intro hsteps hstub
    have hc : ¬ (params.numSteps ≠ (O.executeAssertion m params.numSteps params.timeBounds mv).2.1 ∨
        claim.assertionStub ≠ (O.executeAssertion m params.numSteps params.timeBounds mv).1.stub) := by
      push_neg
      exact ⟨hsteps.symm, hstub⟩
    refine ⟨?_, hstub.symm⟩
    simp [getNodeOpinion, hm, hc]

/-- C9: `getNodeOpinion` is a pure, deterministic function of its seven
inputs (plus the fixed machine-execution semantics): identical inputs yield
the identical `(ChildType, assertion)` pair. In the embedding the function
reads no state beyond its arguments, mirroring the Go function, which touches
no package-level variables. -/
theorem getNodeOpinion_pure
    (O : Oracles) (pa pb : AssertionParams) (ca cb : AssertionClaim) (ppca ppcb : Int)
    (cha chb : Option Int) (msa msb : MessageStack) (mva mvb : TupleValue) (ma mb : Machine)
    (h1 : pa = pb) (h2 : ca = cb) (h3 : ppca = ppcb) (h4 : cha = chb)
    (h5 : msa = msb) (h6 : mva = mvb) (h7 : ma = mb) :
    (getNodeOpinion O pa ca ppca cha msa mva ma).1 =
      (getNodeOpinion O pb cb ppcb chb msb mvb mb).1 := by
  subst h1 h2 h3 h4 h5 h6 h7
  rfl

/-- A concrete oracle for the witnesses: execution always runs exactly the
requested number of steps and produces the message value as its stub. -/
def oracleA : Oracles :=
  { executeAssertion := fun m steps _ mv => ({ didInboxInsn := false, numGas := 0, stub := mv }, steps, m),
    isMachineBlocked := fun _ _ _ => false,
    emptyTupleHash := 99 }

/-- Concrete assertion params for the witnesses. -/
def paramsW : AssertionParams := { numSteps := 10, timeBounds := (0, 0), importedMessageCount := 0 }

/-- Concrete assertion claim for the witnesses. -/
def claimW : AssertionClaim := { afterPendingTop := 0, importedMessagesSlice := 5, assertionStub := 3 }

/-- A message stack whose top hash mismatches `claimW`. -/
def msW : MessageStack := { topCount := 0, getTopHash := 7 }

/-- A second, distinct message stack. -/
def msW2 : MessageStack := { topCount := 1, getTopHash := 8 }

/-- A message stack whose top hash matches `claimW`. -/
def msV : MessageStack := { topCount := 0, getTopHash := 5 }

/-- Witness for `getNodeOpinion_first_violated`: with absent claim height and a
mismatched message hash the result is `InvalidPendingHeight`; with matching
height, mismatched messages and failing execution it is `InvalidMessageSet`. -/
theorem getNodeOpinion_first_violated_witness :
    ((getNodeOpinion oracleA paramsW claimW 0 none msW 4 0).1 = (ChildType.invalidPending, none) ∧
      (getNodeOpinion oracleA paramsW claimW 0 none msW 4 0).1 =
        (getNodeOpinion oracleA paramsW claimW 0 none msW2 5 1).1) ∧
    ((getNodeOpinion oracleA paramsW claimW 0 (some 0) msW 4 0).1 = (ChildType.invalidMessages, none) ∧
      (getNodeOpinion oracleA paramsW claimW 0 (some 0) msW 4 0).1 =
        (getNodeOpinion oracleA paramsW claimW 0 (some 0) msW 5 1).1) :=
  ⟨(getNodeOpinion_first_violated oracleA paramsW claimW 0 none msW msW2 4 5 0 1).1
      (by decide) (Or.inl (by decide)),
    (getNodeOpinion_first_violated oracleA paramsW claimW 0 (some 0) msW msW2 4 5 0 1).2
      (by decide) (by decide) (by decide)⟩

/-- Witness for `getNodeOpinion_execution_classification`: with both early
checks passing, a stub mismatch yields `InvalidExecution` and a full match
yields `Valid` with the matching stub. -/
theorem getNodeOpinion_execution_classification_witness :
    (getNodeOpinion oracleA paramsW claimW 0 (some 0) msV 4 0).1 = (ChildType.invalidExecution, none) ∧
    ((getNodeOpinion oracleA paramsW claimW 0 (some 0) msV 3 0).1 =
        (ChildType.valid, some (oracleA.executeAssertion 0 paramsW.numSteps paramsW.timeBounds 3).1) ∧
      (oracleA.executeAssertion 0 paramsW.numSteps paramsW.timeBounds 3).1.stub = claimW.assertionStub) :=
  ⟨(getNodeOpinion_execution_classification oracleA paramsW claimW 0 (some 0) msV 4 0
      (by decide) (by decide)).2.1 (by decide),
    (getNodeOpinion_execution_classification oracleA paramsW claimW 0 (some 0) msV 3 0
      (by decide) (by decide)).2.2 (by decide) (by decide)⟩

/-- Witness for `getNodeOpinion_pure` at concrete equal inputs. -/
theorem getNodeOpinion_pure_witness :
    (getNodeOpinion oracleA paramsW claimW 0 (some 0) msV 3 0).1 =
      (getNodeOpinion oracleA paramsW claimW 0 (some 0) msV 3 0).1 :=
  getNodeOpinion_pure oracleA paramsW paramsW claimW claimW 0 0 (some 0) (some 0)
    msV msV 3 3 0 0 rfl rfl rfl rfl rfl rfl rfl

/-- C8: every `PreparedAssertion` returned by `prepareAssertion` has
`params.numSteps = stepsRun` and `claim.assertionStub = assertion.stub()`;
when `assertion.didInboxInsn` the imported count/top/slice come from the
message stack and the inbox top, otherwise the count is zero, the pending top
is the leaf's unchanged pre-execution top, and the slice is the canonical
empty-sequence hash. -/
theorem prepareAssertion_postconditions
    (O : Oracles) (c : ChainState) (pa : PreparedAssertion)
    (h : prepareAssertion O c = some pa) :
    pa.params.numSteps =
      (O.executeAssertion c.knownValidNode.machine c.maxExecutionSteps c.currentTimeBounds
        (c.pendingInbox.valueForSubseq c.knownValidNode.vmProtoData.pendingTop
          c.pendingInbox.getTopHash)).2.1 ∧
    pa.assertion =
      (O.executeAssertion c.knownValidNode.machine c.maxExecutionSteps c.currentTimeBounds
        (c.pendingInbox.valueForSubseq c.knownValidNode.vmProtoData.pendingTop
          c.pendingInbox.getTopHash)).1 ∧
    pa.claim.assertionStub = pa.assertion.stub ∧
    (pa.assertion.didInboxInsn = true →
      pa.params.importedMessageCount =
        (c.pendingInbox.substack c.knownValidNode.vmProtoData.pendingTop
          c.pendingInbox.getTopHash).topCount ∧
      pa.claim.afterPendingTop = c.pendingInbox.getTopHash ∧
      pa.claim.importedMessagesSlice =
        (c.pendingInbox.substack c.knownValidNode.vmProtoData.pendingTop
          c.pendingInbox.getTopHash).getTopHash) ∧
    (pa.assertion.didInboxInsn = false →
      pa.params.importedMessageCount = 0 ∧
      pa.claim.afterPendingTop = c.knownValidNode.vmProtoData.pendingTop ∧
      pa.claim.importedMessagesSlice = O.emptyTupleHash) := by
  simp only [prepareAssertion] at h
  split at h
  · exact absurd h (by simp)
  · rw [Option.some.injEq] at h
    subst h
    by_cases hd : (O.executeAssertion c.knownValidNode.machine c.maxExecutionSteps
        c.currentTimeBounds (c.pendingInbox.valueForSubseq
          c.knownValidNode.vmProtoData.pendingTop c.pendingInbox.getTopHash)).1.didInboxInsn <;>
      simp [hd]

/-- A concrete pending inbox for the witnesses. -/
def inboxW : PendingInbox :=
  { getTopHash := 12,
    getHeight := fun _ => none,
    substack := fun _ b => { topCount := 4, getTopHash := b },
    valueForSubseq := fun _ _ => 3 }

/-- A concrete leaf node for the witnesses. -/
def nodeW : Node :=
  { hash := 1, prevHash := 0, nodeDataHash := 0, deadline := 0,
    linkType := ChildType.valid, vmProtoData := { pendingTop := 11, pendingCount := 0 },
    disputable := { assertionParams := paramsW, assertionClaim := claimW },
    successorHashes := fun _ => 0, machine := 0, assertion := none, assertionTxHash := 0 }

/-- A concrete chain whose known-valid node is the leaf `nodeW`. -/
def chainW : ChainState :=
  { knownValidNode := nodeW,
    nodeFromHash := fun h => if h = 1 then some nodeW else none,
    leaves := [1], pendingInbox := inboxW, listeners := [0],
    latestBlockNumber := 0, maxExecutionSteps := 50, currentTimeBounds := (0, 0) }

/-- The prepared assertion `prepareAssertion` computes on `chainW`/`oracleA`. -/
def paW : PreparedAssertion :=
  { leafHash := 1, prevPrevLeafHash := 0, prevDataHash := 0, prevDeadline := 0,
    prevChildType := ChildType.valid, beforeState := { pendingTop := 11, pendingCount := 0 },
    params := { numSteps := 50, timeBounds := (0, 0), importedMessageCount := 0 },
    claim := { afterPendingTop := 11, importedMessagesSlice := 99, assertionStub := 3 },
    assertion := { didInboxInsn := false, numGas := 0, stub := 3 }, machine := 0 }

/-- Witness for `prepareAssertion_postconditions` on the concrete leaf chain. -/
theorem prepareAssertion_postconditions_witness :
    prepareAssertion oracleA chainW = some paW ∧
    (paW.params.numSteps =
        (oracleA.executeAssertion chainW.knownValidNode.machine chainW.maxExecutionSteps
          chainW.currentTimeBounds (chainW.pendingInbox.valueForSubseq
            chainW.knownValidNode.vmProtoData.pendingTop chainW.pendingInbox.getTopHash)).2.1 ∧
      paW.claim.assertionStub = paW.assertion.stub) ∧
    (paW.assertion.didInboxInsn = false →
      paW.params.importedMessageCount = 0 ∧
      paW.claim.afterPendingTop = chainW.knownValidNode.vmProtoData.pendingTop ∧
      paW.claim.importedMessagesSlice = oracleA.emptyTupleHash) := by
  have hpa : prepareAssertion oracleA chainW = some paW := by decide
  have hpost := prepareAssertion_postconditions oracleA chainW paW hpa
  exact ⟨hpa, ⟨hpost.1, hpost.2.2.1⟩, hpost.2.2.2.2⟩

/-- Shared helper: when the node lookup at the classified successor slot
misses, `updateCurrent` returns normally with both caches cleared and nothing
else changed. -/
theorem updateCurrent_lookup_miss (O : Oracles) (st : ReconcilerState)
    (op : ChildType) (nm : Machine) (ve : Option ExecutionAssertion)
    (hc : computeOpinion O st = some (op, nm, ve))
    (hl : st.chain.nodeFromHash (st.chain.knownValidNode.successorHashes op.idx) = none) :
    updateCurrent O st = some (resetCaches st, []) := by
  simp only [updateCurrent, hc, hl]

/-- The post-state of an `updateCurrent` invocation (the pre-state if it would
panic). -/
def afterUpdate (O : Oracles) (st : ReconcilerState) : ReconcilerState :=
  ((updateCurrent O st).getD (st, [])).1

/-- The notification trace of an `updateCurrent` invocation. -/
def afterNotifs (O : Oracles) (st : ReconcilerState) : List Notification :=
  ((updateCurrent O st).getD (st, [])).2

/-- C10: when the successor lookup for the chosen classification slot fails,
the invocation leaves the chain untouched (pointer, every node's fields) and
notifies no observer; its only effect is emptying both speculative caches. -/
theorem updateCurrent_lookup_miss_frame (O : Oracles) (st : ReconcilerState)
    (op : ChildType) (nm : Machine) (ve : Option ExecutionAssertion)
    (hc : computeOpinion O st = some (op, nm, ve))
    (hl : st.chain.nodeFromHash (st.chain.knownValidNode.successorHashes op.idx) = none) :
    updateCurrent O st = some (resetCaches st, []) ∧
    (resetCaches st).chain.knownValidNode = st.chain.knownValidNode ∧
    (resetCaches st).chain.nodeFromHash = st.chain.nodeFromHash ∧
    (resetCaches st).chain = st.chain ∧
    (resetCaches st).preparingAssertions = [] ∧
    (resetCaches st).preparedAssertions = [] :=
  ⟨updateCurrent_lookup_miss O st op nm ve hc hl, rfl, rfl, rfl, rfl, rfl⟩

/-- A second graph node for the lookup-miss fixtures. -/
def node2F : Node :=
  { hash := 2, prevHash := 1, nodeDataHash := 0, deadline := 0,
    linkType := ChildType.valid, vmProtoData := { pendingTop := 11, pendingCount := 0 },
    disputable := { assertionParams := paramsW, assertionClaim := claimW },
    successorHashes := fun _ => 0, machine := 5, assertion := none, assertionTxHash := 7 }

/-- A current node whose only posted successor sits in the `Valid` slot, while
the slot the classification picks (slot 0) is empty. -/
def node1F : Node :=
  { hash := 1, prevHash := 0, nodeDataHash := 0, deadline := 0,
    linkType := ChildType.valid, vmProtoData := { pendingTop := 11, pendingCount := 0 },
    disputable := { assertionParams := paramsW, assertionClaim := claimW },
    successorHashes := fun i => if i = 3 then 2 else 0,
    machine := 0, assertion := none, assertionTxHash := 0 }

/-- A chain on which `getNodeOpinion` classifies to `InvalidPendingHeight`
(slot 0) but slot 0 holds the zero hash, so the successor lookup misses. -/
def chainF : ChainState :=
  { knownValidNode := node1F,
    nodeFromHash := fun h => if h = 1 then some node1F else if h = 2 then some node2F else none,
    leaves := [2], pendingInbox := inboxW, listeners := [0],
    latestBlockNumber := 0, maxExecutionSteps := 50, currentTimeBounds := (0, 0) }

/-- Reconciler state over `chainF` with empty caches. -/
def stF : ReconcilerState := { chain := chainF, preparingAssertions := [], preparedAssertions := [] }

/-- Witness for `updateCurrent_lookup_miss_frame` on the concrete state `stF`. -/
theorem updateCurrent_lookup_miss_frame_witness :
    updateCurrent oracleA stF = some (resetCaches stF, []) ∧
    (resetCaches stF).chain.knownValidNode = stF.chain.knownValidNode ∧
    (resetCaches stF).chain.nodeFromHash = stF.chain.nodeFromHash ∧
    (resetCaches stF).chain = stF.chain ∧
    (resetCaches stF).preparingAssertions = [] ∧
    (resetCaches stF).preparedAssertions = [] :=
  updateCurrent_lookup_miss_frame oracleA stF ChildType.invalidPending 0 none rfl rfl

/-- Counterexample to C7: on `stF` the classification is `InvalidPendingHeight`
and its successor slot resolves to no graph node, yet `updateCurrent` is not
treated as fatal and does not stop the loop: it returns normally, leaves the
known-valid pointer in place, emits no notification, and invoking it again
does exactly the same, i.e. the miss is silently skipped and retried. -/
theorem updateCurrent_lookup_miss_not_fatal :
    computeOpinion oracleA stF = some (ChildType.invalidPending, 0, none) ∧
    stF.chain.nodeFromHash
      (stF.chain.knownValidNode.successorHashes ChildType.invalidPending.idx) = none ∧
    (updateCurrent oracleA stF).isSome = true ∧
    (afterUpdate oracleA stF).chain.knownValidNode.hash = stF.chain.knownValidNode.hash ∧
    afterNotifs oracleA stF = [] ∧
    (updateCurrent oracleA (afterUpdate oracleA stF)).isSome = true ∧
    (afterUpdate oracleA (afterUpdate oracleA stF)).chain.knownValidNode.hash =
      stF.chain.knownValidNode.hash ∧
    afterNotifs oracleA (afterUpdate oracleA stF) = [] :=
  ⟨rfl, rfl, rfl, rfl, rfl, rfl, rfl, rfl⟩

/-- C7 amended: a classified successor hash with no matching graph node is
silently skipped rather than fatal: `updateCurrent` returns normally with the
chain unchanged and no notifications (only the speculative caches are
cleared), and a repeat invocation whose classification also misses is
stationary, so the catch-up loop silently retries instead of stopping. -/
theorem updateCurrent_lookup_miss_retries (O : Oracles) (st : ReconcilerState)
    (op : ChildType) (nm : Machine) (ve : Option ExecutionAssertion)
    (hc : computeOpinion O st = some (op, nm, ve))
    (hl : st.chain.nodeFromHash (st.chain.knownValidNode.successorHashes op.idx) = none) :
    updateCurrent O st = some (resetCaches st, []) ∧
    (resetCaches st).chain = st.chain ∧
    (∀ (op2 : ChildType) (nm2 : Machine) (ve2 : Option ExecutionAssertion),
      computeOpinion O (resetCaches st) = some (op2, nm2, ve2) →
      st.chain.nodeFromHash (st.chain.knownValidNode.successorHashes op2.idx) = none →
      updateCurrent O (resetCaches st) = some (resetCaches st, [])) := by
  refine ⟨updateCurrent_lookup_miss O st op nm ve hc hl, rfl, ?_⟩
  intro op2 nm2 ve2 hc2 hl2
  exact updateCurrent_lookup_miss O (resetCaches st) op2 nm2 ve2 hc2 hl2

/-- Witness for `updateCurrent_lookup_miss_retries` on the concrete state
`stF`, discharging both the first-pass and the retry hypotheses. -/
theorem updateCurrent_lookup_miss_retries_witness :
    (updateCurrent oracleA stF = some (resetCaches stF, []) ∧
      (resetCaches stF).chain = stF.chain) ∧
    updateCurrent oracleA (resetCaches stF) = some (resetCaches stF, []) :=
  ⟨⟨(updateCurrent_lookup_miss_retries oracleA stF ChildType.invalidPending 0 none rfl rfl).1,
    (updateCurrent_lookup_miss_retries oracleA stF ChildType.invalidPending 0 none rfl rfl).2.1⟩,
    (updateCurrent_lookup_miss_retries oracleA stF ChildType.invalidPending 0 none rfl rfl).2.2
      ChildType.invalidPending 0 none rfl rfl⟩

/-- C1: whenever `updateCurrent` actually moves the known-valid pointer, the
new node's hash occupies one of the current node's four `successorHashes`
slots, and under any depth assignment in which every resolvable successor slot
of the current node is exactly one level deeper, the pointer's depth increases
by exactly one (it can never decrease or skip). -/
theorem updateCurrent_advances_to_direct_successor
    (O : Oracles) (st st' : ReconcilerState) (notifs : List Notification) (depth : Hash → Nat)
    (h : updateCurrent O st = some (st', notifs))
    (hmove : st'.chain.knownValidNode.hash ≠ st.chain.knownValidNode.hash)
    (hsucc : ∀ (i : Fin 4) (c : Node),
      st.chain.nodeFromHash (st.chain.knownValidNode.successorHashes i) = some c →
      c.hash = st.chain.knownValidNode.successorHashes i ∧
      depth c.hash = depth st.chain.knownValidNode.hash + 1) :
    (∃ i : Fin 4, st'.chain.knownValidNode.hash = st.chain.knownValidNode.successorHashes i) ∧
    depth st'.chain.knownValidNode.hash = depth st.chain.knownValidNode.hash + 1 := by
  cases hc : computeOpinion O st with
  | none =>
    rw [updateCurrent, hc] at h
    simp at h
  | some t =>
    obtain ⟨op, nm, ve⟩ := t
    rw [updateCurrent, hc] at h
    dsimp only at h
    cases hl : st.chain.nodeFromHash (st.chain.knownValidNode.successorHashes op.idx) with
    | none =>
      rw [hl] at h
      dsimp only at h
      rw [Option.some.injEq, Prod.mk.injEq] at h
      exact absurd (congrArg (fun s => s.chain.knownValidNode.hash) h.1) (Ne.symm hmove)
    | some correctNode =>
      rw [hl] at h
      dsimp only at h
      rw [Option.some.injEq, Prod.mk.injEq] at h
      obtain ⟨hkey, hdepth⟩ := hsucc op.idx correctNode hl
      have hhash : st'.chain.knownValidNode.hash = correctNode.hash := by
        rw [← h.1]
        by_cases hv : op = ChildType.valid <;> simp [hv]
      exact ⟨⟨op.idx, by rw [hhash, hkey]⟩, by rw [hhash]; exact hdepth⟩

/-- A current node whose posted successor sits in slot 0, matching the
`InvalidPendingHeight` classification the inbox induces. -/
def node1G : Node :=
  { hash := 1, prevHash := 0, nodeDataHash := 0, deadline := 0,
    linkType := ChildType.valid, vmProtoData := { pendingTop := 11, pendingCount := 0 },
    disputable := { assertionParams := paramsW, assertionClaim := claimW },
    successorHashes := fun i => if i = 0 then 2 else 0,
    machine := 0, assertion := none, assertionTxHash := 0 }

/-- A chain on which `updateCurrent` moves the pointer from node 1 to node 2. -/
def chainG : ChainState :=
  { knownValidNode := node1G,
    nodeFromHash := fun h => if h = 1 then some node1G else if h = 2 then some node2F else none,
    leaves := [2], pendingInbox := inboxW, listeners := [0],
    latestBlockNumber := 0, maxExecutionSteps := 50, currentTimeBounds := (0, 0) }

/-- Reconciler state over `chainG` with empty caches. -/
def stG : ReconcilerState := { chain := chainG, preparingAssertions := [], preparedAssertions := [] }

/-- A depth assignment for the two-node graph of `chainG`. -/
def depthG (h : Hash) : Nat := if h = 2 then 1 else 0

/-- Witness for `updateCurrent_advances_to_direct_successor`: on `stG` the
pointer moves from node 1 to node 2, the hash in successor slot 0, and its
depth increases by exactly one. -/
theorem updateCurrent_advances_to_direct_successor_witness :
    depthG (afterUpdate oracleA stG).chain.knownValidNode.hash =
      depthG stG.chain.knownValidNode.hash + 1 ∧
    (afterUpdate oracleA stG).chain.knownValidNode.hash =
      stG.chain.knownValidNode.successorHashes 0 :=
  ⟨(updateCurrent_advances_to_direct_successor oracleA stG (afterUpdate oracleA stG)
      (afterNotifs oracleA stG) depthG rfl (by decide)
      (by
        intro i c hc
        fin_cases i
        · injection hc with h2
          subst h2
          exact ⟨rfl, rfl⟩
        · exact Option.noConfusion hc
        · exact Option.noConfusion hc
        · exact Option.noConfusion hc)).2, rfl⟩

/-- A concrete heap for the clone fixtures. -/
def heap0 : Heap :=
  { next := 6,
    intCells := fun _ => 0,
    protoCells := fun _ => { pendingTop := 0, pendingCount := 0 },
    paramsCells := fun _ => paramsW,
    claimCells := fun _ => claimW,
    assertionCells := fun _ => { didInboxInsn := false, numGas := 0, stub := 0 },
    machineCells := fun _ => 0 }

/-- A prepared assertion on `heap0` whose pointer fields are cells 0..5. -/
def paRef0 : PreparedAssertionRef :=
  { leafHash := 1, prevPrevLeafHash := 0, prevDataHash := 0, prevDeadlineRef := 0,
    prevChildType := ChildType.valid, beforeStateRef := 1, paramsRef := 2, claimRef := 3,
    assertionRef := 4, machineRef := 5 }

/-- A mutated execution assertion value. -/
def ea99 : ExecutionAssertion := { didInboxInsn := true, numGas := 1, stub := 99 }

/-- Counterexample to C5: `Clone` copies the `assertion` and `machine`
pointers rather than the pointed-to values, so the clone's references alias
the original's, and mutating the assertion through the clone changes the
assertion the original observes. -/
theorem clonePrepared_assertion_aliased :
    (clonePrepared heap0 paRef0).2.assertionRef = paRef0.assertionRef ∧
    (clonePrepared heap0 paRef0).2.machineRef = paRef0.machineRef ∧
    (writeAssertionCell (clonePrepared heap0 paRef0).1
        (clonePrepared heap0 paRef0).2.assertionRef ea99).assertionCells paRef0.assertionRef = ea99 ∧
    heap0.assertionCells paRef0.assertionRef ≠ ea99 :=
  ⟨rfl, rfl, by decide, by decide⟩

/-- C5 amended: `Clone` yields a copy that is independent in its scalar fields
and its deep-copied `prevDeadline`, `beforeState`, `params` and `claim` cells
(fresh, content-equal cells; writes through either side's reference leave the
other side's cell untouched), but its `assertion` and `machine` references are
shared with the original, so an in-place write through the clone's reference
is observed through the original's (and vice versa). -/
theorem clonePrepared_independence (hp : Heap) (pa : PreparedAssertionRef)
    (hd : pa.prevDeadlineRef < hp.next) (hb : pa.beforeStateRef < hp.next)
    (hpm : pa.paramsRef < hp.next) (hcl : pa.claimRef < hp.next) :
    ((clonePrepared hp pa).2.leafHash = pa.leafHash ∧
      (clonePrepared hp pa).2.prevPrevLeafHash = pa.prevPrevLeafHash ∧
      (clonePrepared hp pa).2.prevDataHash = pa.prevDataHash ∧
      (clonePrepared hp pa).2.prevChildType = pa.prevChildType) ∧
    ((clonePrepared hp pa).2.prevDeadlineRef ≠ pa.prevDeadlineRef ∧
      (clonePrepared hp pa).1.intCells (clonePrepared hp pa).2.prevDeadlineRef =
        hp.intCells pa.prevDeadlineRef ∧
      (clonePrepared hp pa).1.intCells pa.prevDeadlineRef = hp.intCells pa.prevDeadlineRef ∧
      (∀ v, (writeIntCell (clonePrepared hp pa).1 (clonePrepared hp pa).2.prevDeadlineRef v).intCells
          pa.prevDeadlineRef = (clonePrepared hp pa).1.intCells pa.prevDeadlineRef) ∧
      (∀ v, (writeIntCell (clonePrepared hp pa).1 pa.prevDeadlineRef v).intCells
          (clonePrepared hp pa).2.prevDeadlineRef =
        (clonePrepared hp pa).1.intCells (clonePrepared hp pa).2.prevDeadlineRef)) ∧
    ((clonePrepared hp pa).2.beforeStateRef ≠ pa.beforeStateRef ∧
      (clonePrepared hp pa).1.protoCells (clonePrepared hp pa).2.beforeStateRef =
        hp.protoCells pa.beforeStateRef ∧
      (clonePrepared hp pa).1.protoCells pa.beforeStateRef = hp.protoCells pa.beforeStateRef ∧
      (∀ v, (writeProtoCell (clonePrepared hp pa).1 (clonePrepared hp pa).2.beforeStateRef v).protoCells
          pa.beforeStateRef = (clonePrepared hp pa).1.protoCells pa.beforeStateRef) ∧
      (∀ v, (writeProtoCell (clonePrepared hp pa).1 pa.beforeStateRef v).protoCells
          (clonePrepared hp pa).2.beforeStateRef =
        (clonePrepared hp pa).1.protoCells (clonePrepared hp pa).2.beforeStateRef)) ∧
    ((clonePrepared hp pa).2.paramsRef ≠ pa.paramsRef ∧
      (clonePrepared hp pa).1.paramsCells (clonePrepared hp pa).2.paramsRef =
        hp.paramsCells pa.paramsRef ∧
      (clonePrepared hp pa).1.paramsCells pa.paramsRef = hp.paramsCells pa.paramsRef ∧
      (∀ v, (writeParamsCell (clonePrepared hp pa).1 (clonePrepared hp pa).2.paramsRef v).paramsCells
          pa.paramsRef = (clonePrepared hp pa).1.paramsCells pa.paramsRef) ∧
      (∀ v, (writeParamsCell (clonePrepared hp pa).1 pa.paramsRef v).paramsCells
          (clonePrepared hp pa).2.paramsRef =
        (clonePrepared hp pa).1.paramsCells (clonePrepared hp pa).2.paramsRef)) ∧
    ((clonePrepared hp pa).2.claimRef ≠ pa.claimRef ∧
      (clonePrepared hp pa).1.claimCells (clonePrepared hp pa).2.claimRef =
        hp.claimCells pa.claimRef ∧
      (clonePrepared hp pa).1.claimCells pa.claimRef = hp.claimCells pa.claimRef ∧
      (∀ v, (writeClaimCell (clonePrepared hp pa).1 (clonePrepared hp pa).2.claimRef v).claimCells
          pa.claimRef = (clonePrepared hp pa).1.claimCells pa.claimRef) ∧
      (∀ v, (writeClaimCell (clonePrepared hp pa).1 pa.claimRef v).claimCells
          (clonePrepared hp pa).2.claimRef =
        (clonePrepared hp pa).1.claimCells (clonePrepared hp pa).2.claimRef)) ∧
    ((clonePrepared hp pa).2.assertionRef = pa.assertionRef ∧
      (clonePrepared hp pa).2.machineRef = pa.machineRef ∧
      (∀ v, (writeAssertionCell (clonePrepared hp pa).1 (clonePrepared hp pa).2.assertionRef
          v).assertionCells pa.assertionRef = v) ∧
      (∀ v, (writeMachineCell (clonePrepared hp pa).1 (clonePrepared hp pa).2.machineRef
          v).machineCells pa.machineRef = v)) := by
  have hd4 : pa.prevDeadlineRef ≠ hp.next := Nat.ne_of_lt hd
  have hb4 : pa.beforeStateRef ≠ hp.next + 1 := Nat.ne_of_lt (Nat.lt_succ_of_lt hb)
  have hp4 : pa.paramsRef ≠ hp.next + 2 :=
    Nat.ne_of_lt (Nat.lt_succ_of_lt (Nat.lt_succ_of_lt hpm))
  have hc4 : pa.claimRef ≠ hp.next + 3 :=
    Nat.ne_of_lt (Nat.lt_succ_of_lt (Nat.lt_succ_of_lt (Nat.lt_succ_of_lt hcl)))
  refine ⟨⟨rfl, rfl, rfl, rfl⟩, ⟨hd4.symm, ?_, ?_, ?_, ?_⟩, ⟨hb4.symm, ?_, ?_, ?_, ?_⟩,
    ⟨hp4.symm, ?_, ?_, ?_, ?_⟩, ⟨hc4.symm, ?_, ?_, ?_, ?_⟩, rfl, rfl, ?_, ?_⟩
  · exact Function.update_same _ _ _
  · exact Function.update_noteq hd4 _ _
  · intro v
    simp only [clonePrepared, writeIntCell]
    exact Function.update_noteq hd4 _ _
  · intro v
    simp only [clonePrepared, writeIntCell]
    exact Function.update_noteq hd4.symm _ _
  · exact Function.update_same _ _ _
  · exact Function.update_noteq hb4 _ _
  · intro v
    simp only [clonePrepared, writeProtoCell]
    exact Function.update_noteq hb4 _ _
  · intro v
    simp only [clonePrepared, writeProtoCell]
    exact Function.update_noteq hb4.symm _ _
  · exact Function.update_same _ _ _
  · exact Function.update_noteq hp4 _ _
  · intro v
    simp only [clonePrepared, writeParamsCell]
    exact Function.update_noteq hp4 _ _
  · intro v
    simp only [clonePrepared, writeParamsCell]
    exact Function.update_noteq hp4.symm _ _
  · exact Function.update_same _ _ _
  · exact Function.update_noteq hc4 _ _
  · intro v
    simp only [clonePrepared, writeClaimCell]
    exact Function.update_noteq hc4 _ _
  · intro v
    simp only [clonePrepared, writeClaimCell]
    exact Function.update_noteq hc4.symm _ _
  · intro v
    exact Function.update_same _ _ _
  · intro v
    exact Function.update_same _ _ _

/-- Witness for `clonePrepared_independence` on `heap0`/`paRef0`. -/
theorem clonePrepared_independence_witness :
    ((clonePrepared heap0 paRef0).2.prevDeadlineRef ≠ paRef0.prevDeadlineRef ∧
      (clonePrepared heap0 paRef0).1.intCells (clonePrepared heap0 paRef0).2.prevDeadlineRef =
        heap0.intCells paRef0.prevDeadlineRef) ∧
    (clonePrepared heap0 paRef0).2.assertionRef = paRef0.assertionRef :=
  ⟨⟨(clonePrepared_independence heap0 paRef0 (by decide) (by decide) (by decide)
        (by decide)).2.1.1,
    (clonePrepared_independence heap0 paRef0 (by decide) (by decide) (by decide)
        (by decide)).2.1.2.1⟩,
    (clonePrepared_independence heap0 paRef0 (by decide) (by decide) (by decide)
        (by decide)).2.2.2.2.2.1⟩

/-- Counterexample to C6: after the pointer has moved past node 1 (to node 2),
a build result for the superseded leaf 1 arriving on the channel is still
stored in the prepared-assertions cache by the arrival handler — the handler
(opinion.go lines 145-146) stores unconditionally — contrary to the claim that
it is never stored. -/
theorem handlePrepared_stores_superseded :
    (updateCurrent oracleA stG).isSome = true ∧
    (afterUpdate oracleA stG).chain.knownValidNode.hash = 2 ∧
    paW.leafHash = 1 ∧
    lookupPA (handlePrepared (afterUpdate oracleA stG) paW).1.preparedAssertions 1 = some paW :=
  ⟨rfl, rfl, rfl, rfl⟩

/-- C6 amended: a build result arriving after its leaf was superseded is stored
in the cache, keyed by its (stale) leaf hash, but it is inert: the arrival
handler changes nothing but the cache and emits no notification; the ticker
surfaces only the entry cached under the current known-valid node's hash, so a
stale entry is never surfaced while the pointer is elsewhere; and every
completed `updateCurrent` empties both caches, discarding it. -/
theorem superseded_build_never_surfaced :
    (∀ (st : ReconcilerState) (pa : PreparedAssertion),
      (handlePrepared st pa).1.chain = st.chain ∧
      (handlePrepared st pa).1.preparingAssertions = st.preparingAssertions ∧
      (handlePrepared st pa).2 = [] ∧
      lookupPA (handlePrepared st pa).1.preparedAssertions pa.leafHash = some pa) ∧
    (∀ (O : Oracles) (st : ReconcilerState) (l : Nat) (pac : PreparedAssertion),
      Notification.assertionPrepared l pac ∈ (tickerPrepareStep O st).2 →
      lookupPA st.preparedAssertions st.chain.knownValidNode.hash = some pac) ∧
    (∀ (O : Oracles) (st st' : ReconcilerState) (notifs : List Notification),
      updateCurrent O st = some (st', notifs) →
      st'.preparedAssertions = [] ∧ st'.preparingAssertions = []) := by
  refine ⟨?_, ?_, ?_⟩
  · intro st pa
    refine ⟨rfl, rfl, rfl, ?_⟩
    simp [handlePrepared, lookupPA]
  · intro O st l pac hmem
    simp only [tickerPrepareStep] at hmem
    split at hmem
    · split at hmem
      · rename_i prepared hlk
        split at hmem
        · simp only [List.mem_map] at hmem
          obtain ⟨a, _, heq⟩ := hmem
          injection heq with ha hpa
          rw [hlk]
          exact congrArg some hpa
        · simp at hmem
      · simp at hmem
    · split at hmem <;> simp at hmem
  · intro O st st' notifs h
    cases hc : computeOpinion O st with
    | none =>
      rw [updateCurrent, hc] at h
      simp at h
    | some t =>
      obtain ⟨op, nm, ve⟩ := t
      rw [updateCurrent, hc] at h
      dsimp only at h
      cases hl : st.chain.nodeFromHash (st.chain.knownValidNode.successorHashes op.idx) with
      | none =>
        rw [hl] at h
        dsimp only at h
        rw [Option.some.injEq, Prod.mk.injEq] at h
        rw [← h.1]
        exact ⟨rfl, rfl⟩
      | some correctNode =>
        rw [hl] at h
        dsimp only at h
        rw [Option.some.injEq, Prod.mk.injEq] at h
        rw [← h.1]
        exact ⟨rfl, rfl⟩

/-- A reconciler state in which the current leaf's build is cached and
surfaced by the ticker. -/
def stS : ReconcilerState :=
  { chain := chainW, preparingAssertions := [1], preparedAssertions := [(1, paW)] }

/-- Witness for `superseded_build_never_surfaced`: arrival stores the stale
entry, the ticker surfaces exactly the current node's cached entry, and a
completed transition leaves both caches empty. -/
theorem superseded_build_never_surfaced_witness :
    lookupPA (handlePrepared (afterUpdate oracleA stG) paW).1.preparedAssertions paW.leafHash =
      some paW ∧
    lookupPA stS.preparedAssertions stS.chain.knownValidNode.hash = some paW ∧
    (afterUpdate oracleA stG).preparedAssertions = [] :=
  ⟨(superseded_build_never_surfaced.1 (afterUpdate oracleA stG) paW).2.2.2,
    superseded_build_never_surfaced.2.1 oracleA stS 0 paW (by decide),
    (superseded_build_never_surfaced.2.2 oracleA stG (afterUpdate oracleA stG)
      (afterNotifs oracleA stG) rfl).1⟩
